import Mathlib

/-!
Verification of the activity-scoring core of ChronoClime, a weather
forecasting and activity-planning application. The definitions below are a
shallow embedding of `src/utils/weatherData.ts`: the activity profile table
and lookup (`activityDefaults`, `getActivityPreferences`), the daily Activity
Climate Index Score (`calculateACIS`), and the optimal time-window search
(`findOptimalTimeWindow`). JavaScript numbers are modelled as rationals (ℚ);
`Date` fields, which none of the verified functions read, are omitted. The
TypeScript interface-extension layout (`HourlyWeather extends
WeatherCondition`) is flattened into plain structures with the same fields.
-/

/-- The `condition` union type of `WeatherCondition` in the source:
`sunny | cloudy | rainy | stormy | snowy | partly-cloudy`. -/
inductive SkyCondition where
  | sunny
  | cloudy
  | rainy
  | stormy
  | snowy
  | partlyCloudy
deriving DecidableEq, Repr

/-- `HourlyWeather` from the source: the common `WeatherCondition` fields
plus the `hour` field (its `timestamp : Date` is omitted, it is never read
by the scoring functions). -/
structure HourlyWeather where
  temp : ℚ
  feelsLike : ℚ
  precipitation : ℚ
  wind : ℚ
  humidity : ℚ
  uv : ℚ
  aqi : ℚ
  condition : SkyCondition
  description : String
  hour : ℕ
deriving DecidableEq, Repr

/-- `DailyWeather` from the source: the common `WeatherCondition` fields plus
the daily extras (its `date : Date` is omitted, it is never read by the
scoring functions). -/
structure DailyWeather where
  temp : ℚ
  feelsLike : ℚ
  precipitation : ℚ
  wind : ℚ
  humidity : ℚ
  uv : ℚ
  aqi : ℚ
  condition : SkyCondition
  description : String
  tempMin : ℚ
  tempMax : ℚ
  hourlyData : List HourlyWeather
  sunrise : String
  sunset : String
deriving DecidableEq, Repr

/-- `ActivityPreferences` from the source. -/
structure ActivityPreferences where
  idealTempMin : ℚ
  idealTempMax : ℚ
  maxWindSpeed : ℚ
  maxPrecipitation : ℚ
deriving DecidableEq, Repr

/-- The `trekking` entry of the table, also the fallback profile. -/
def trekkingPrefs : ActivityPreferences := ⟨10, 25, 20, 20⟩

/-- The fixed ten-entry `activityDefaults` table, in source order. -/
def activityDefaults : List (String × ActivityPreferences) :=
  [("trekking", trekkingPrefs),
   ("photography", ⟨5, 30, 25, 10⟩),
   ("picnic", ⟨15, 28, 15, 5⟩),
   ("cycling", ⟨12, 26, 20, 10⟩),
   ("beach day", ⟨22, 35, 25, 5⟩),
   ("camping", ⟨8, 22, 15, 15⟩),
   ("outdoor sports", ⟨15, 28, 20, 10⟩),
   ("bird watching", ⟨10, 25, 15, 20⟩),
   ("stargazing", ⟨5, 20, 10, 0⟩),
   ("gardening", ⟨12, 28, 15, 30⟩)]

/-- The property names every plain object literal inherits from
`Object.prototype`: JS bracket lookup on `activityDefaults` resolves these
through the prototype chain to the inherited member (a function, or the
prototype object itself for `__proto__`) instead of `undefined`; all of
those members are truthy values. -/
def objectPrototypeKeys : List String :=
  ["constructor", "hasOwnProperty", "isPrototypeOf", "propertyIsEnumerable",
   "toLocaleString", "toString", "valueOf", "__defineGetter__",
   "__defineSetter__", "__lookupGetter__", "__lookupSetter__", "__proto__"]

/-- A runtime value that bracket lookup on `activityDefaults` can produce:
an own entry of the table (an `ActivityPreferences` record), or a member
inherited from `Object.prototype` through the prototype chain, identified by
its property name. -/
inductive ActivityLookup where
  | own (prefs : ActivityPreferences)
  | protoMember (name : String)
deriving DecidableEq, Repr

/-- JS bracket lookup `activityDefaults[name]`: an own key yields its
profile; otherwise a property name of `Object.prototype` yields the
inherited member; any other name yields `undefined` (`none`). -/
def lookupActivity (name : String) : Option ActivityLookup :=
  match (activityDefaults.find? (fun kv => kv.1 == name)).map Prod.snd with
  | some prefs => some (ActivityLookup.own prefs)
  | none =>
      if name ∈ objectPrototypeKeys then some (ActivityLookup.protoMember name)
      else none

/-- `getActivityPreferences` from the source:
`activityDefaults[activityName.toLowerCase()] || activityDefaults['trekking']`.
Every value the bracket lookup can produce — an own profile record or an
inherited `Object.prototype` member — is truthy, so only `undefined` falls
through the `||` to the lookup of the own `'trekking'` entry (whose `.getD`
default is unreachable because `"trekking"` is a key of the table). -/
def getActivityPreferences (activityName : String) : ActivityLookup :=
  let normalized := activityName.toLower
  match lookupActivity normalized with
  | some v => v
  | none => (lookupActivity "trekking").getD (ActivityLookup.own trekkingPrefs)

/-- One entry of the `factors` array built by `calculateACIS`. -/
structure ScoreFactor where
  name : String
  impact : ℚ
  value : ℚ
deriving DecidableEq, Repr

/-- The record returned by `calculateACIS`. -/
structure ACISResult where
  score : ℚ
  factors : List ScoreFactor
deriving DecidableEq, Repr

/-- `calculateACIS` from the source: start from 10, apply the five penalty
rules in order (temperature, wind, precipitation, air quality, UV), each
pushing a factor entry when it triggers, then clamp the total to [1, 10]. -/
def calculateACIS (weather : DailyWeather) (preferences : ActivityPreferences) :
    ACISResult :=
  let factors : List ScoreFactor := []
  let totalScore : ℚ := 10
  let tempScore : ℚ :=
    if preferences.idealTempMin ≤ weather.temp ∧ weather.temp ≤ preferences.idealTempMax
    then 0 else -2
  let factors :=
    if tempScore ≠ 0 then factors ++ [⟨"Temperature", tempScore, weather.temp⟩] else factors
  let totalScore := if tempScore ≠ 0 then totalScore + tempScore else totalScore
  let windPenalty : ℚ := -1.5
  let factors :=
    if weather.wind > preferences.maxWindSpeed
    then factors ++ [⟨"Wind", windPenalty, weather.wind⟩] else factors
  let totalScore :=
    if weather.wind > preferences.maxWindSpeed then totalScore + windPenalty else totalScore
  let precipPenalty : ℚ := -2.5
  let factors :=
    if weather.precipitation > preferences.maxPrecipitation
    then factors ++ [⟨"Precipitation", precipPenalty, weather.precipitation⟩] else factors
  let totalScore :=
    if weather.precipitation > preferences.maxPrecipitation
    then totalScore + precipPenalty else totalScore
  let aqiPenalty : ℚ := -1
  let factors :=
    if weather.aqi > 100 then factors ++ [⟨"Air Quality", aqiPenalty, weather.aqi⟩] else factors
  let totalScore := if weather.aqi > 100 then totalScore + aqiPenalty else totalScore
  let uvPenalty : ℚ := -0.5
  let factors :=
    if weather.uv > 8 then factors ++ [⟨"UV Index", uvPenalty, weather.uv⟩] else factors
  let totalScore := if weather.uv > 8 then totalScore + uvPenalty else totalScore
  ⟨max 1 (min 10 totalScore), factors⟩

/-- `calculateACIS` as the source executes it when the `preferences` argument
is a member inherited from `Object.prototype` rather than a profile record:
every preference field read on it yields `undefined`, and in JS every numeric
comparison with `undefined` is false, so the temperature rule (whose in-range
test `temp >= undefined && temp <= undefined` is false) always subtracts 2,
the wind and precipitation rules (`wind > undefined`,
`precipitation > undefined`) never fire, and the aqi and uv rules, which do
not read the preferences, are unchanged. -/
def calculateACISProtoPrefs (weather : DailyWeather) : ACISResult :=
  let factors : List ScoreFactor := []
  let totalScore : ℚ := 10
  let tempScore : ℚ := -2
  let factors := factors ++ [⟨"Temperature", tempScore, weather.temp⟩]
  let totalScore := totalScore + tempScore
  let aqiPenalty : ℚ := -1
  let factors :=
    if weather.aqi > 100 then factors ++ [⟨"Air Quality", aqiPenalty, weather.aqi⟩] else factors
  let totalScore := if weather.aqi > 100 then totalScore + aqiPenalty else totalScore
  let uvPenalty : ℚ := -0.5
  let factors :=
    if weather.uv > 8 then factors ++ [⟨"UV Index", uvPenalty, weather.uv⟩] else factors
  let totalScore := if weather.uv > 8 then totalScore + uvPenalty else totalScore
  ⟨max 1 (min 10 totalScore), factors⟩

/-- The record returned by `findOptimalTimeWindow`. -/
structure TimeWindow where
  startHour : ℕ
  endHour : ℕ
  score : ℚ
deriving DecidableEq, Repr

/-- The body of the `forEach` over the hours of a candidate window in
`findOptimalTimeWindow`: subtract 0.3 / 0.2 / 0.4 for an hour whose
temperature / wind / precipitation violates the profile. -/
def hourStep (preferences : ActivityPreferences) (score : ℚ) (hour : HourlyWeather) : ℚ :=
  let score :=
    if hour.temp < preferences.idealTempMin ∨ hour.temp > preferences.idealTempMax
    then score - 0.3 else score
  let score := if hour.wind > preferences.maxWindSpeed then score - 0.2 else score
  if hour.precipitation > preferences.maxPrecipitation then score - 0.4 else score

/-- The score of the candidate window `[start, stop)`:
`hourlyData.slice(start, stop)` folded through `hourStep` from 10.
`List.take (stop - start) (List.drop start l)` models the empty-safe
`Array.prototype.slice`. -/
def windowScore (hourlyData : List HourlyWeather) (preferences : ActivityPreferences)
    (start stop : ℕ) : ℚ :=
  ((hourlyData.drop start).take (stop - start)).foldl (hourStep preferences) 10

/-- `findOptimalTimeWindow` from the source: best-so-far initialized to
`{startHour: 9, endHour: 17, score: 0}`, outer loop `start = 6..17`, inner
loop `duration = 3..8`, skipping windows that end past hour 20, replacing the
best-so-far only on a strictly greater score. (`stop` is the source's local
variable `end`, a reserved word in Lean.) -/
def findOptimalTimeWindow (hourlyData : List HourlyWeather)
    (preferences : ActivityPreferences) : TimeWindow :=
  (List.range' 6 12).foldl (fun bestWindow start =>
    (List.range' 3 6).foldl (fun bestWindow duration =>
      let stop := start + duration
      if stop > 20 then bestWindow
      else
        let score := windowScore hourlyData preferences start stop
        if bestWindow.score < score then ⟨start, stop, score⟩ else bestWindow)
      bestWindow)
    ⟨9, 17, 0⟩

/-- One comparison step of the window search, on an explicit candidate pair
`(startHour, endHour)`. -/
def updWindow (hourlyData : List HourlyWeather) (preferences : ActivityPreferences)
    (bestWindow : TimeWindow) (c : ℕ × ℕ) : TimeWindow :=
  let score := windowScore hourlyData preferences c.1 c.2
  if bestWindow.score < score then ⟨c.1, c.2, score⟩ else bestWindow

/-- The candidate pairs `(start, start + duration)` actually compared by the
search, in iteration order: `start` ascending 6..17, `duration` ascending
3..8, windows ending past 20 skipped. -/
def validCandidates : List (ℕ × ℕ) :=
  (List.range' 6 12).flatMap (fun start =>
    (List.range' 3 6).filterMap (fun duration =>
      if start + duration > 20 then none else some (start, start + duration)))

set_option maxRecDepth 20000

theorem foldl_flatMap_eq {α β γ : Type} (g : α → List β) (f : γ → β → γ)
    (l : List α) : ∀ b : γ,
    (l.flatMap g).foldl f b = l.foldl (fun b a => (g a).foldl f b) b := by
  induction l with
  | nil => intro b; rfl
  | cons a t ih => intro b; simp only [List.flatMap_cons, List.foldl_append,
      List.foldl_cons, ih]

theorem foldl_filterMap_eq {α β γ : Type} (g : α → Option β) (f : γ → β → γ)
    (l : List α) : ∀ b : γ,
    (l.filterMap g).foldl f b
      = l.foldl (fun b a => match g a with | none => b | some x => f b x) b := by
  induction l with
  | nil => intro b; rfl
  | cons a t ih =>
      intro b
      rcases hga : g a with _ | x <;>
        simp only [List.filterMap_cons, hga, List.foldl_cons, ih]

theorem findOptimalTimeWindow_eq_foldl (hourlyData : List HourlyWeather)
    (preferences : ActivityPreferences) :
    findOptimalTimeWindow hourlyData preferences
      = validCandidates.foldl (updWindow hourlyData preferences) ⟨9, 17, 0⟩ := by
  rw [validCandidates, foldl_flatMap_eq, findOptimalTimeWindow]
  simp only [foldl_filterMap_eq]
  congr 1
  funext bestWindow start
  congr 1
  funext b duration
  by_cases h : start + duration > 20 <;> simp [h, updWindow]

theorem hourStep_le (preferences : ActivityPreferences) (score : ℚ)
    (hour : HourlyWeather) : hourStep preferences score hour ≤ score := by
  unfold hourStep
  split_ifs <;> linarith

theorem hourStep_ge (preferences : ActivityPreferences) (score : ℚ)
    (hour : HourlyWeather) : score - 9/10 ≤ hourStep preferences score hour := by
  unfold hourStep
  split_ifs <;> linarith

theorem foldl_hourStep_le (preferences : ActivityPreferences)
    (ws : List HourlyWeather) : ∀ a : ℚ, ws.foldl (hourStep preferences) a ≤ a := by
  induction ws with
  | nil => intro a; exact le_refl a
  | cons x t ih =>
      intro a
      calc (x :: t).foldl (hourStep preferences) a
          = t.foldl (hourStep preferences) (hourStep preferences a x) := rfl
        _ ≤ hourStep preferences a x := ih _
        _ ≤ a := hourStep_le preferences a x

theorem foldl_hourStep_ge (preferences : ActivityPreferences)
    (ws : List HourlyWeather) :
    ∀ a : ℚ, a - (9/10) * ws.length ≤ ws.foldl (hourStep preferences) a := by
  induction ws with
  | nil => intro a; simp
  | cons x t ih =>
      intro a
      have h1 := ih (hourStep preferences a x)
      have h2 := hourStep_ge preferences a x
      have hlen : ((x :: t).length : ℚ) = (t.length : ℚ) + 1 := by
        push_cast [List.length_cons]; ring
      calc a - (9/10) * ((x :: t).length : ℚ)
          = (hourStep preferences a x - (9/10) * t.length)
            + (a - 9/10 - hourStep preferences a x) := by rw [hlen]; ring
        _ ≤ t.foldl (hourStep preferences) (hourStep preferences a x) + 0 := by
            have : a - 9/10 - hourStep preferences a x ≤ 0 := by linarith
            exact add_le_add h1 this
        _ = (x :: t).foldl (hourStep preferences) a := by rw [add_zero]; rfl

theorem windowScore_le_ten (hourlyData : List HourlyWeather)
    (preferences : ActivityPreferences) (start stop : ℕ) :
    windowScore hourlyData preferences start stop ≤ 10 :=
  foldl_hourStep_le preferences _ 10

theorem windowScore_ge (hourlyData : List HourlyWeather)
    (preferences : ActivityPreferences) (start stop : ℕ) (h : stop - start ≤ 8) :
    (2.8 : ℚ) ≤ windowScore hourlyData preferences start stop := by
  unfold windowScore
  have hlen : ((hourlyData.drop start).take (stop - start)).length ≤ 8 := by
    rw [List.length_take]
    omega
  have hlenQ : (((hourlyData.drop start).take (stop - start)).length : ℚ) ≤ 8 := by
    exact_mod_cast hlen
  have hfold := foldl_hourStep_ge preferences ((hourlyData.drop start).take (stop - start)) 10
  have : (9/10 : ℚ) * (((hourlyData.drop start).take (stop - start)).length : ℚ)
      ≤ (9/10) * 8 := by
    exact mul_le_mul_of_nonneg_left hlenQ (by norm_num)
  have h28 : (2.8 : ℚ) = 10 - (9/10) * 8 := by norm_num
  linarith

theorem foldl_updWindow_cases (hourlyData : List HourlyWeather)
    (preferences : ActivityPreferences) (l : List (ℕ × ℕ)) : ∀ b : TimeWindow,
    (l.foldl (updWindow hourlyData preferences) b = b
      ∧ ∀ c ∈ l, windowScore hourlyData preferences c.1 c.2 ≤ b.score)
    ∨ ∃ l1 c l2, l = l1 ++ c :: l2
        ∧ l.foldl (updWindow hourlyData preferences) b
            = ⟨c.1, c.2, windowScore hourlyData preferences c.1 c.2⟩
        ∧ b.score < windowScore hourlyData preferences c.1 c.2
        ∧ (∀ c' ∈ l1, windowScore hourlyData preferences c'.1 c'.2
            < windowScore hourlyData preferences c.1 c.2)
        ∧ ∀ c' ∈ l2, windowScore hourlyData preferences c'.1 c'.2
            ≤ windowScore hourlyData preferences c.1 c.2 := by
  induction l with
  | nil => intro b; exact Or.inl ⟨rfl, by simp⟩
  | cons a t ih =>
      intro b
      rw [List.foldl_cons]
      by_cases h : b.score < windowScore hourlyData preferences a.1 a.2
      · have hupd : updWindow hourlyData preferences b a
            = ⟨a.1, a.2, windowScore hourlyData preferences a.1 a.2⟩ := by
          simp [updWindow, h]
        rw [hupd]
        rcases ih ⟨a.1, a.2, windowScore hourlyData preferences a.1 a.2⟩ with
          ⟨heq, hall⟩ | ⟨l1, c, l2, hsplit, heq, hlt, hl1, hl2⟩
        · exact Or.inr ⟨[], a, t, by simp, heq, h, by simp, by simpa using hall⟩
        · refine Or.inr ⟨a :: l1, c, l2, by rw [hsplit]; rfl, heq, ?_, ?_, hl2⟩
          · simp only [TimeWindow.score] at hlt
            exact lt_trans h hlt
          · intro c' hc'
            rcases List.mem_cons.mp hc' with rfl | hmem
            · simpa using hlt
            · exact hl1 c' hmem
      · have hupd : updWindow hourlyData preferences b a = b := by
          simp [updWindow, h]
        rw [hupd]
        rcases ih b with ⟨heq, hall⟩ | ⟨l1, c, l2, hsplit, heq, hlt, hl1, hl2⟩
        · refine Or.inl ⟨heq, ?_⟩
          intro c hc
          rcases List.mem_cons.mp hc with rfl | hmem
          · exact not_lt.mp h
          · exact hall c hmem
        · refine Or.inr ⟨a :: l1, c, l2, by rw [hsplit]; rfl, heq, hlt, ?_, hl2⟩
          intro c' hc'
          rcases List.mem_cons.mp hc' with rfl | hmem
          · exact lt_of_le_of_lt (not_lt.mp h) hlt
          · exact hl1 c' hmem

theorem validCandidates_bounds : ∀ c ∈ validCandidates,
    6 ≤ c.1 ∧ c.2 ≤ 20 ∧ 3 ≤ c.2 - c.1 ∧ c.2 - c.1 ≤ 8 := by decide

theorem mem_validCandidates_first : ((6, 9) : ℕ × ℕ) ∈ validCandidates := by decide

theorem validCandidates_head : validCandidates.head? = some (6, 9) := by decide

theorem findOptimal_spec (hourlyData : List HourlyWeather)
    (preferences : ActivityPreferences) :
    ∃ l1 c l2, validCandidates = l1 ++ c :: l2
      ∧ findOptimalTimeWindow hourlyData preferences
          = ⟨c.1, c.2, windowScore hourlyData preferences c.1 c.2⟩
      ∧ (∀ c' ∈ l1, windowScore hourlyData preferences c'.1 c'.2
          < windowScore hourlyData preferences c.1 c.2)
      ∧ ∀ c' ∈ validCandidates, windowScore hourlyData preferences c'.1 c'.2
          ≤ windowScore hourlyData preferences c.1 c.2 := by
  rcases foldl_updWindow_cases hourlyData preferences validCandidates ⟨9, 17, 0⟩ with
    ⟨heq, hall⟩ | ⟨l1, c, l2, hsplit, heq, hgt, hl1, hl2⟩
  · exfalso
    have h0 := hall (6, 9) mem_validCandidates_first
    have h1 : (2.8 : ℚ) ≤ windowScore hourlyData preferences 6 9 :=
      windowScore_ge hourlyData preferences 6 9 (by norm_num)
    simp only [TimeWindow.score] at h0
    linarith
  · refine ⟨l1, c, l2, hsplit, ?_, hl1, ?_⟩
    · rw [findOptimalTimeWindow_eq_foldl]; exact heq
    · intro c' hc'
      rw [hsplit] at hc'
      rcases List.mem_append.mp hc' with h1 | h2
      · exact le_of_lt (hl1 c' h1)
      · rcases List.mem_cons.mp h2 with rfl | h2
        · exact le_refl _
        · exact hl2 c' h2

theorem foldl_hourStep_const (preferences : ActivityPreferences)
    (ws : List HourlyWeather)
    (h : ∀ x ∈ ws, ∀ a : ℚ, hourStep preferences a x = a) :
    ∀ a : ℚ, ws.foldl (hourStep preferences) a = a := by
  induction ws with
  | nil => intro a; rfl
  | cons x t ih =>
      intro a
      rw [List.foldl_cons, h x (List.mem_cons_self x t) a]
      exact ih (fun y hy => h y (List.mem_cons_of_mem x hy)) a

theorem findOptimal_all_ten (hourlyData : List HourlyWeather)
    (preferences : ActivityPreferences)
    (h : ∀ c ∈ validCandidates, windowScore hourlyData preferences c.1 c.2 = 10) :
    findOptimalTimeWindow hourlyData preferences = ⟨6, 9, 10⟩ := by
  obtain ⟨l1, c, l2, hsplit, heq, hl1, _⟩ := findOptimal_spec hourlyData preferences
  have hc : c ∈ validCandidates := by
    rw [hsplit]; exact List.mem_append_right _ (List.mem_cons_self _ _)
  have hcs : windowScore hourlyData preferences c.1 c.2 = 10 := h c hc
  have hl1nil : l1 = [] := by
    cases l1 with
    | nil => rfl
    | cons a t =>
        exfalso
        have ha : a ∈ validCandidates := by
          rw [hsplit]; exact List.mem_append_left _ (List.mem_cons_self a t)
        have hlt := hl1 a (List.mem_cons_self a t)
        rw [h a ha, hcs] at hlt
        exact lt_irrefl 10 hlt
  subst hl1nil
  rw [List.nil_append] at hsplit
  have hchead : c = (6, 9) := by
    have hh : validCandidates.head? = some c := by rw [hsplit]; rfl
    rw [validCandidates_head] at hh
    exact (Option.some_inj.mp hh).symm
  rw [hchead] at heq hcs
  rw [heq, hcs]

/-- An hour that satisfies every bound of the profile incurs no penalty in the
window search. -/
theorem hourStep_ideal (preferences : ActivityPreferences) (x : HourlyWeather)
    (h1 : preferences.idealTempMin ≤ x.temp) (h2 : x.temp ≤ preferences.idealTempMax)
    (h3 : x.wind ≤ preferences.maxWindSpeed)
    (h4 : x.precipitation ≤ preferences.maxPrecipitation) :
    ∀ a : ℚ, hourStep preferences a x = a := by
  intro a
  have c1 : ¬(x.temp < preferences.idealTempMin ∨ x.temp > preferences.idealTempMax) := by
    push_neg; exact ⟨h1, h2⟩
  have c2 : ¬(x.wind > preferences.maxWindSpeed) := not_lt.mpr h3
  have c3 : ¬(x.precipitation > preferences.maxPrecipitation) := not_lt.mpr h4
  simp [hourStep, c1, c2, c3]

/-- The daily summary of spec Scenario B: `temp=38, wind=55, precipitation=90,
aqi=160, uv=9`; the remaining fields are not read by `calculateACIS` and are
filled arbitrarily. -/
def scenarioB : DailyWeather :=
  ⟨38, 40, 90, 55, 60, 9, 160, SkyCondition.rainy, "Rainy", 30, 40, [], "06:30", "18:45"⟩

/-- The daily summary of spec Scenario A: `temp=20, wind=5, precipitation=0,
aqi=30, uv=3`, a day inside every bound of the trekking profile; the
remaining fields are not read by `calculateACIS` and are filled
arbitrarily. -/
def scenarioA : DailyWeather :=
  ⟨20, 20, 0, 5, 50, 3, 30, SkyCondition.sunny, "Clear and sunny", 15, 25, [], "06:30", "18:45"⟩

/-- A single hourly sample lying inside every bound of the trekking profile
(`temp=15 ∈ [10,25]`, `wind=5 ≤ 20`, `precipitation=0 ≤ 20`); replicated 24
times it realizes spec Scenario D. -/
def calmHour : HourlyWeather :=
  ⟨15, 15, 0, 5, 40, 3, 20, SkyCondition.sunny, "Clear and sunny", 0⟩

/-- Claim C1: for every daily weather summary and activity profile,
`calculateACIS` returns a score equal to the clamp to [1, 10] of 10 plus the
sum of exactly the five independent penalties (-2 temperature outside the
inclusive ideal range, -1.5 wind above the bound, -2.5 precipitation above the
bound, -1 aqi above 100, -0.5 uv above 8); and on Scenario B (temp 38, wind
55, precipitation 90, aqi 160, uv 9, trekking profile) the score is exactly
2.5 with all five factors present. -/
theorem calculateACIS_score_formula (weather : DailyWeather)
    (preferences : ActivityPreferences) :
    (calculateACIS weather preferences).score
      = max 1 (min 10 (10
        + (if preferences.idealTempMin ≤ weather.temp
              ∧ weather.temp ≤ preferences.idealTempMax then 0 else -2)
        + (if weather.wind > preferences.maxWindSpeed then -1.5 else 0)
        + (if weather.precipitation > preferences.maxPrecipitation then -2.5 else 0)
        + (if weather.aqi > 100 then -1 else 0)
        + (if weather.uv > 8 then (-0.5 : ℚ) else 0)))
    ∧ calculateACIS scenarioB trekkingPrefs
        = ⟨2.5, [⟨"Temperature", -2, 38⟩, ⟨"Wind", -1.5, 55⟩,
            ⟨"Precipitation", -2.5, 90⟩, ⟨"Air Quality", -1, 160⟩,
            ⟨"UV Index", -0.5, 9⟩]⟩ := by
  constructor
  · simp only [calculateACIS]
    split_ifs <;> norm_num at *
  · with_unfolding_all rfl

/-- Claim C5: for every daily weather summary and every activity profile, the
score returned by `calculateACIS` lies in the inclusive interval [1, 10]. -/
theorem calculateACIS_score_clamped (weather : DailyWeather)
    (preferences : ActivityPreferences) :
    1 ≤ (calculateACIS weather preferences).score
      ∧ (calculateACIS weather preferences).score ≤ 10 := by
  refine ⟨?_, ?_⟩ <;> simp only [calculateACIS]
  · exact le_max_left _ _
  · exact max_le (by norm_num) (min_le_left _ _)

/-- Claim C6: for every input, the factors list of `calculateACIS` is exactly
the concatenation of one optional entry per rule in the fixed order
Temperature, Wind, Precipitation, Air Quality, UV Index, where an entry is
present exactly when its rule triggers, carries the rule's fixed non-positive
impact constant, and carries the raw input value that triggered it; hence the
list has at most 5 entries, each of the five names at most once, in the fixed
order. -/
theorem calculateACIS_factors_shape (weather : DailyWeather)
    (preferences : ActivityPreferences) :
    (calculateACIS weather preferences).factors
      = (if preferences.idealTempMin ≤ weather.temp
            ∧ weather.temp ≤ preferences.idealTempMax
         then [] else [⟨"Temperature", -2, weather.temp⟩])
        ++ (if weather.wind > preferences.maxWindSpeed
            then [⟨"Wind", -1.5, weather.wind⟩] else [])
        ++ (if weather.precipitation > preferences.maxPrecipitation
            then [⟨"Precipitation", -2.5, weather.precipitation⟩] else [])
        ++ (if weather.aqi > 100 then [⟨"Air Quality", -1, weather.aqi⟩] else [])
        ++ (if weather.uv > 8 then [⟨"UV Index", -0.5, weather.uv⟩] else [])
    ∧ (calculateACIS weather preferences).factors.length ≤ 5
    ∧ ∀ f ∈ (calculateACIS weather preferences).factors,
        f.impact ≤ 0
        ∧ f.name ∈ ["Temperature", "Wind", "Precipitation", "Air Quality", "UV Index"] := by
  have hmain : (calculateACIS weather preferences).factors
      = (if preferences.idealTempMin ≤ weather.temp
            ∧ weather.temp ≤ preferences.idealTempMax
         then [] else [⟨"Temperature", -2, weather.temp⟩])
        ++ (if weather.wind > preferences.maxWindSpeed
            then [⟨"Wind", -1.5, weather.wind⟩] else [])
        ++ (if weather.precipitation > preferences.maxPrecipitation
            then [⟨"Precipitation", -2.5, weather.precipitation⟩] else [])
        ++ (if weather.aqi > 100 then [⟨"Air Quality", -1, weather.aqi⟩] else [])
        ++ (if weather.uv > 8 then [⟨"UV Index", -0.5, weather.uv⟩] else []) := by
    simp only [calculateACIS]
    split_ifs <;> norm_num at *
  refine ⟨hmain, ?_, ?_⟩
  · rw [hmain]
    split_ifs <;> simp
  · rw [hmain]
    intro f hf
    simp only [List.mem_append] at hf
    rcases hf with ((((hf | hf) | hf) | hf) | hf) <;>
      (split_ifs at hf <;>
        simp only [List.mem_singleton, List.not_mem_nil] at hf) <;>
      (subst hf; exact ⟨by norm_num, by simp⟩)

/-- Claim C3: for every hourly array and profile, `findOptimalTimeWindow`
returns a window from the enumerated candidate space (`validCandidates`,
startHour 6..17, duration 3..8, endHour ≤ 20, in iteration order) achieving
the maximum candidate score, and among candidates tied at that maximum the
returned one is the first in iteration order: every candidate strictly
earlier in the enumeration has a strictly smaller score. -/
theorem findOptimalTimeWindow_first_argmax (hourlyData : List HourlyWeather)
    (preferences : ActivityPreferences) :
    ∃ l1 c l2, validCandidates = l1 ++ c :: l2
      ∧ findOptimalTimeWindow hourlyData preferences
          = ⟨c.1, c.2, windowScore hourlyData preferences c.1 c.2⟩
      ∧ (∀ c' ∈ l1, windowScore hourlyData preferences c'.1 c'.2
          < windowScore hourlyData preferences c.1 c.2)
      ∧ ∀ c' ∈ validCandidates, windowScore hourlyData preferences c'.1 c'.2
          ≤ windowScore hourlyData preferences c.1 c.2 :=
  findOptimal_spec hourlyData preferences

/-- Claim C4: for every hourly array and every profile, the window returned
by `findOptimalTimeWindow` satisfies 6 ≤ startHour, endHour ≤ 20 and
3 ≤ endHour − startHour ≤ 8. -/
theorem findOptimalTimeWindow_bounds (hourlyData : List HourlyWeather)
    (preferences : ActivityPreferences) :
    6 ≤ (findOptimalTimeWindow hourlyData preferences).startHour
    ∧ (findOptimalTimeWindow hourlyData preferences).endHour ≤ 20
    ∧ 3 ≤ (findOptimalTimeWindow hourlyData preferences).endHour
        - (findOptimalTimeWindow hourlyData preferences).startHour
    ∧ (findOptimalTimeWindow hourlyData preferences).endHour
        - (findOptimalTimeWindow hourlyData preferences).startHour ≤ 8 := by
  obtain ⟨l1, c, l2, hsplit, heq, -, -⟩ := findOptimal_spec hourlyData preferences
  have hc : c ∈ validCandidates := by
    rw [hsplit]; exact List.mem_append_right _ (List.mem_cons_self _ _)
  have hb := validCandidates_bounds c hc
  rw [heq]
  exact hb

/-- Claim C9: `findOptimalTimeWindow` never returns the initialization
default `{startHour: 9, endHour: 17, score: 0}`: every enumerated candidate
scores at least 10 − 8 × 0.9 = 2.8, so the first candidate always replaces
the default and the returned score lies in [2.8, 10]. -/
theorem findOptimalTimeWindow_never_default (hourlyData : List HourlyWeather)
    (preferences : ActivityPreferences) :
    findOptimalTimeWindow hourlyData preferences ≠ ⟨9, 17, 0⟩
    ∧ (2.8 : ℚ) ≤ (findOptimalTimeWindow hourlyData preferences).score
    ∧ (findOptimalTimeWindow hourlyData preferences).score ≤ 10
    ∧ ∀ c ∈ validCandidates,
        (2.8 : ℚ) ≤ windowScore hourlyData preferences c.1 c.2 := by
  obtain ⟨l1, c, l2, hsplit, heq, -, -⟩ := findOptimal_spec hourlyData preferences
  have hc : c ∈ validCandidates := by
    rw [hsplit]; exact List.mem_append_right _ (List.mem_cons_self _ _)
  have hb := validCandidates_bounds c hc
  have hge : (2.8 : ℚ) ≤ windowScore hourlyData preferences c.1 c.2 :=
    windowScore_ge hourlyData preferences c.1 c.2 hb.2.2.2
  have hle : windowScore hourlyData preferences c.1 c.2 ≤ 10 :=
    windowScore_le_ten hourlyData preferences c.1 c.2
  refine ⟨?_, by rw [heq]; exact hge, by rw [heq]; exact hle, ?_⟩
  · intro hbad
    rw [heq] at hbad
    have hscore := congrArg TimeWindow.score hbad
    simp only [TimeWindow.score] at hscore
    rw [hscore] at hge
    norm_num at hge
  · intro c' hc'
    exact windowScore_ge hourlyData preferences c'.1 c'.2
      (validCandidates_bounds c' hc').2.2.2

theorem findOptimal_replicate_ten (x : HourlyWeather) (preferences : ActivityPreferences)
    (h1 : preferences.idealTempMin ≤ x.temp) (h2 : x.temp ≤ preferences.idealTempMax)
    (h3 : x.wind ≤ preferences.maxWindSpeed)
    (h4 : x.precipitation ≤ preferences.maxPrecipitation) (n : ℕ) :
    findOptimalTimeWindow (List.replicate n x) preferences = ⟨6, 9, 10⟩ := by
  apply findOptimal_all_ten
  intro c _
  unfold windowScore
  apply foldl_hourStep_const
  intro y hy a
  have hyx : y = x :=
    (List.mem_replicate.mp (List.mem_of_mem_drop (List.mem_of_mem_take hy))).2
  subst hyx
  exact hourStep_ideal preferences y h1 h2 h3 h4 a

/-- Counterexample to claim C2 as stated: 24 identical hourly samples inside
every bound of the trekking profile make `findOptimalTimeWindow` return
`{startHour: 6, endHour: 9, score: 10}` — the first-enumerated (shortest)
perfect window — not `{startHour: 6, endHour: 14, score: 10}` as the claim
demands, because an equal score never replaces the current best under the
strict `>` comparison. -/
theorem scenarioD_counterexample :
    (trekkingPrefs.idealTempMin ≤ calmHour.temp
      ∧ calmHour.temp ≤ trekkingPrefs.idealTempMax
      ∧ calmHour.wind ≤ trekkingPrefs.maxWindSpeed
      ∧ calmHour.precipitation ≤ trekkingPrefs.maxPrecipitation)
    ∧ findOptimalTimeWindow (List.replicate 24 calmHour) trekkingPrefs
        ≠ ⟨6, 14, 10⟩
    ∧ findOptimalTimeWindow (List.replicate 24 calmHour) trekkingPrefs
        = ⟨6, 9, 10⟩ := by
  have h10 : findOptimalTimeWindow (List.replicate 24 calmHour) trekkingPrefs
      = ⟨6, 9, 10⟩ :=
    findOptimal_replicate_ten calmHour trekkingPrefs (by norm_num [calmHour, trekkingPrefs])
      (by norm_num [calmHour, trekkingPrefs]) (by norm_num [calmHour, trekkingPrefs])
      (by norm_num [calmHour, trekkingPrefs]) 24
  refine ⟨⟨by norm_num [calmHour, trekkingPrefs], by norm_num [calmHour, trekkingPrefs],
    by norm_num [calmHour, trekkingPrefs], by norm_num [calmHour, trekkingPrefs]⟩, ?_, h10⟩
  rw [h10]
  intro hbad
  exact absurd (congrArg TimeWindow.endHour hbad) (by norm_num)

/-- Claim C2 (amended): for any 24 identical hourly samples whose temperature
lies inside the profile's ideal range and whose wind and precipitation are
within the profile's bounds, `findOptimalTimeWindow` returns exactly
`{startHour: 6, endHour: 9, score: 10}` — the earliest-starting,
shortest-duration window with score 10, since under the strict `>` comparison
the first candidate attaining the maximal score 10 is kept. -/
theorem findOptimalTimeWindow_uniform_ideal (x : HourlyWeather)
    (preferences : ActivityPreferences)
    (h1 : preferences.idealTempMin ≤ x.temp) (h2 : x.temp ≤ preferences.idealTempMax)
    (h3 : x.wind ≤ preferences.maxWindSpeed)
    (h4 : x.precipitation ≤ preferences.maxPrecipitation) :
    findOptimalTimeWindow (List.replicate 24 x) preferences = ⟨6, 9, 10⟩ :=
  findOptimal_replicate_ten x preferences h1 h2 h3 h4 24

/-- Witness for the amended claim C2, instantiated at the concrete compliant
sample `calmHour` and the trekking profile. -/
theorem findOptimalTimeWindow_uniform_ideal_witness :
    (trekkingPrefs.idealTempMin ≤ calmHour.temp
      ∧ calmHour.temp ≤ trekkingPrefs.idealTempMax
      ∧ calmHour.wind ≤ trekkingPrefs.maxWindSpeed
      ∧ calmHour.precipitation ≤ trekkingPrefs.maxPrecipitation)
    ∧ findOptimalTimeWindow (List.replicate 24 calmHour) trekkingPrefs
        = ⟨6, 9, 10⟩ :=
  ⟨⟨by norm_num [calmHour, trekkingPrefs], by norm_num [calmHour, trekkingPrefs],
    by norm_num [calmHour, trekkingPrefs], by norm_num [calmHour, trekkingPrefs]⟩,
   findOptimalTimeWindow_uniform_ideal calmHour trekkingPrefs
     (by norm_num [calmHour, trekkingPrefs]) (by norm_num [calmHour, trekkingPrefs])
     (by norm_num [calmHour, trekkingPrefs]) (by norm_num [calmHour, trekkingPrefs])⟩

/-- Claim C7 says every string whose lowercasing is not one of the ten
activity names resolves to the trekking fallback, so that scoring with an
unknown name equals scoring with the trekking profile. The code violates
this — and its own declared `ActivityPreferences` return type, and the spec
policy that unresolved activity names silently substitute the default
profile — for every name that lowercases to an all-lowercase
`Object.prototype` property: `activityDefaults['constructor']` (likewise
`'__proto__'`) resolves through the prototype chain to the truthy inherited
member, which survives the `||`, so the trekking fallback is never reached,
and scoring with the resulting object (all preference fields `undefined`)
differs from scoring with the trekking profile, as the Scenario A day shows.
A genuinely absent key such as "underwater basket weaving" does fall back as
claimed, and known names still resolve case-insensitively. -/
theorem getActivityPreferences_proto_bug :
    getActivityPreferences "constructor" = ActivityLookup.protoMember "constructor"
    ∧ getActivityPreferences "CONSTRUCTOR" = ActivityLookup.protoMember "constructor"
    ∧ getActivityPreferences "__proto__" = ActivityLookup.protoMember "__proto__"
    ∧ getActivityPreferences "constructor" ≠ ActivityLookup.own trekkingPrefs
    ∧ getActivityPreferences "underwater basket weaving"
        = ActivityLookup.own trekkingPrefs
    ∧ getActivityPreferences "PICNIC" = ActivityLookup.own ⟨15, 28, 15, 5⟩
    ∧ calculateACISProtoPrefs scenarioA = ⟨8, [⟨"Temperature", -2, 20⟩]⟩
    ∧ calculateACIS scenarioA trekkingPrefs = ⟨10, []⟩
    ∧ calculateACISProtoPrefs scenarioA ≠ calculateACIS scenarioA trekkingPrefs := by
  refine ⟨?_, ?_, ?_, ?_, ?_, ?_, ?_, ?_, ?_⟩ <;> with_unfolding_all decide

/-- Claim C8: `findOptimalTimeWindow` is total on hourly arrays of any
length: a candidate window reaching past the end of the array just scores the
hours that exist (an empty slice keeps the unpenalized score 10, a slice cut
short by the array end scores as if the window ended at the array length),
and on the empty array the search still returns a window. -/
theorem findOptimalTimeWindow_short_array_safe (hourlyData : List HourlyWeather)
    (preferences : ActivityPreferences) (start stop : ℕ) :
    (hourlyData.length ≤ start → windowScore hourlyData preferences start stop = 10)
    ∧ (hourlyData.length ≤ stop →
        windowScore hourlyData preferences start stop
          = windowScore hourlyData preferences start (max start hourlyData.length))
    ∧ findOptimalTimeWindow ([] : List HourlyWeather) preferences = ⟨6, 9, 10⟩ := by
  refine ⟨?_, ?_, ?_⟩
  · intro h
    unfold windowScore
    rw [List.drop_eq_nil_of_le h]
    simp
  · intro h
    unfold windowScore
    congr 1
    by_cases hs : hourlyData.length ≤ start
    · rw [List.drop_eq_nil_of_le hs]
      simp
    · push_neg at hs
      have hdl : (hourlyData.drop start).length = hourlyData.length - start :=
        List.length_drop start hourlyData
      have hA : (hourlyData.drop start).length ≤ stop - start := by rw [hdl]; omega
      have hB : (hourlyData.drop start).length ≤ max start hourlyData.length - start := by
        rw [hdl]; omega
      rw [List.take_of_length_le hA, List.take_of_length_le hB]
  · apply findOptimal_all_ten
    intro c _
    simp [windowScore]

/-- Witness for claim C8: a one-element hourly array, scored on windows
starting past its end and reaching past its end. -/
theorem findOptimalTimeWindow_short_array_safe_witness :
    (([calmHour] : List HourlyWeather).length ≤ 5
      ∧ windowScore [calmHour] trekkingPrefs 5 9 = 10)
    ∧ (([calmHour] : List HourlyWeather).length ≤ 9
      ∧ windowScore [calmHour] trekkingPrefs 0 9
          = windowScore [calmHour] trekkingPrefs 0
              (max 0 ([calmHour] : List HourlyWeather).length)) :=
  ⟨⟨by decide,
    (findOptimalTimeWindow_short_array_safe [calmHour] trekkingPrefs 5 9).1 (by decide)⟩,
   ⟨by decide,
    (findOptimalTimeWindow_short_array_safe [calmHour] trekkingPrefs 0 9).2.1 (by decide)⟩⟩

/-- Claim C10: `calculateACIS` and `findOptimalTimeWindow` are deterministic
pure functions of their arguments: two calls with identical inputs yield
identical outputs, with no hidden state or call history (in this embedding
both are plain functions, so the result depends on nothing but the
arguments). -/
theorem acisFunctions_deterministic (w w' : DailyWeather)
    (p p' : ActivityPreferences) (hourly hourly' : List HourlyWeather)
    (hw : w = w') (hp : p = p') (hh : hourly = hourly') :
    calculateACIS w p = calculateACIS w' p'
    ∧ findOptimalTimeWindow hourly p = findOptimalTimeWindow hourly' p' := by
  subst hw hp hh
  exact ⟨rfl, rfl⟩

/-- Witness for claim C10, instantiated at the Scenario B day, the trekking
profile and the empty hourly array. -/
theorem acisFunctions_deterministic_witness :
    scenarioB = scenarioB ∧ trekkingPrefs = trekkingPrefs
    ∧ ([] : List HourlyWeather) = []
    ∧ calculateACIS scenarioB trekkingPrefs = calculateACIS scenarioB trekkingPrefs
    ∧ findOptimalTimeWindow [] trekkingPrefs = findOptimalTimeWindow [] trekkingPrefs :=
  ⟨rfl, rfl, rfl,
   acisFunctions_deterministic scenarioB scenarioB trekkingPrefs trekkingPrefs [] []
     rfl rfl rfl⟩
